import Mathlib

/-!
Verification development for the webhose client library
(`webhose/__init__.py`), under Python 2 semantics (the module imports
the Python 2 `urlparse` first and uses `basestring`).

The shallow embedding below translates the query-string builder
(`Query`), the session search pipeline (`Session.search`), the page
wrapper and pagination iterator (`Response`), and the fixed-position
timestamp parser (`parse_iso8601`).  HTTP transport is modelled as an
oracle function; Python exceptions are modelled with `Except` / sum
outcomes; Python strings are modelled as Lean strings or `List Char`
(character sequences) where character indexing matters.
-/

namespace Webhose

/-- Split a character sequence at every occurrence of a separator
character, keeping empty pieces, as Python `str.split(sep)` does for a
one-character separator. -/
def splitOnChar (sep : Char) : List Char → List (List Char)
  | [] => [[]]
  | c :: rest =>
    match splitOnChar sep rest with
    | [] => [[]]
    | h :: t => if c = sep then [] :: h :: t else (c :: h) :: t

/-- Python `s.split(sep)` for the one-character separators used by the
modelled library code. -/
def pySplitChar (s : String) (sep : Char) : List String :=
  (splitOnChar sep s.data).map String.mk

/-- Modelled from the `some_terms.replace(" ", " OR ")` call: every
space character of the string is replaced by the replacement string
(for a one-character pattern this is exactly Python `str.replace`). -/
def pyReplaceSpace (s : String) (rep : String) : String :=
  String.mk ((s.data.map (fun c => if c = ' ' then rep.data else [c])).flatten)

/-- Python truthiness of an optional string value: `None` and the empty
string are falsy, every other string is truthy. -/
def truthyS : Option String → Bool
  | Option.none => false
  | some s => s ≠ ""

/-- Value of an optional string field at a point where the source has
already checked truthiness (never reached with `none`). -/
def getS : Option String → String
  | Option.none => ""
  | some s => s

/-- Python value assigned to a `Query` attribute: `None`, a string, or a
list of strings. -/
inductive PyVal where
  | none
  | str (s : String)
  | list (l : List String)
deriving DecidableEq

/-- Translation of `Query.__setattr__`: a string assigned to a field
named in `LIST_FIELDS` is wrapped into a one-element list, every other
assignment is stored as given. -/
def setattr_value (name : String) (listNames : List String) (v : PyVal) : PyVal :=
  if name ∈ listNames then
    match v with
    | PyVal.str s => PyVal.list [s]
    | w => w
  else v

/-- Stored value of a list field, after `__setattr__` normalization
(`None` and lists pass through; a bare string can no longer occur). -/
def asList : PyVal → List String
  | PyVal.list l => l
  | PyVal.str _ => []
  | PyVal.none => []

/-- Translation of the `Query` object.  The nine bespoke fields of
`query_string` are explicit.  `DIRECT_FIELDS` and `LIST_FIELDS` come
from `settings.py`, which is not among the sources; Modelled from the
spec: they are "a static classification table (configuration data, not
logic)" disjoint from the bespoke fields, kept here as the name lists
`directNames` / `listNames` with the stored (already normalized)
attribute values as functions of the field name.  An unset field is
`none` (scalar) or `[]` (list): both are falsy exactly as in the
source. -/
structure Query where
  all_terms : Option String
  exact_phrase : Option String
  some_terms : Option String
  exclude : Option String
  is_first : Bool
  thread_title : Option String
  thread_section_title : Option String
  language : Option String
  thread_country : Option String
  directNames : List String
  directVal : String → Option String
  listNames : List String
  listVal : String → List String

/-- Translation of `Query.list_string`: a parenthesized OR-group over
every value of a list field. -/
def Query.list_string (q : Query) (field : String) : String :=
  "(" ++ String.intercalate " OR " ((q.listVal field).map (fun v => field ++ ":" ++ v)) ++ ")"

/-- Translation of `Query.direct_string`: `field:value` for a
single-valued field. -/
def Query.direct_string (q : Query) (field : String) : String :=
  field ++ ":" ++ getS (q.directVal field)

/-- Translation of the `qs` list built by `Query.query_string`
(lines 40-62): each clause is appended only when the corresponding
attribute is truthy, in the fixed source order, ending with the
`DIRECT_FIELDS` and `LIST_FIELDS` sweeps. -/
def Query.clauses (q : Query) : List String :=
  (if truthyS q.all_terms then [getS q.all_terms] else [])
  ++ (if truthyS q.exact_phrase then ["\"" ++ getS q.exact_phrase ++ "\""] else [])
  ++ (if truthyS q.some_terms then ["(" ++ pyReplaceSpace (getS q.some_terms) " OR " ++ ")"] else [])
  ++ (if truthyS q.exclude then ["-" ++ getS q.exclude] else [])
  ++ (if q.is_first then ["is_first:true"] else [])
  ++ (if truthyS q.thread_title then ["thread.title:(" ++ getS q.thread_title ++ ")"] else [])
  ++ (if truthyS q.thread_section_title then ["thread.section_title:(" ++ getS q.thread_section_title ++ ")"] else [])
  ++ (if truthyS q.language then ["language:(" ++ getS q.language ++ ")"] else [])
  ++ (if truthyS q.thread_country then ["thread.country:" ++ getS q.thread_country] else [])
  ++ ((q.directNames.filter (fun n => truthyS (q.directVal n))).map q.direct_string)
  ++ ((q.listNames.filter (fun n => !(q.listVal n).isEmpty)).map q.list_string)

/-- Translation of `Query.query_string` line 63: the clauses joined
with single spaces. -/
def Query.query_string (q : Query) : String :=
  String.intercalate " " q.clauses

/-- Names of the recognized filter fields: the nine bespoke fields plus
the direct-field and list-field catch-alls. -/
inductive FieldName where
  | all_terms
  | exact_phrase
  | some_terms
  | exclude
  | is_first
  | thread_title
  | thread_section_title
  | language
  | thread_country
  | direct (n : String)
  | list (n : String)
deriving DecidableEq

/-- Whether a field of the query is set, in the sense of the source
truthiness tests (`None`, the empty string, `False` and the empty list
are all unset). -/
def isSet (q : Query) : FieldName → Bool
  | FieldName.all_terms => truthyS q.all_terms
  | FieldName.exact_phrase => truthyS q.exact_phrase
  | FieldName.some_terms => truthyS q.some_terms
  | FieldName.exclude => truthyS q.exclude
  | FieldName.is_first => q.is_first
  | FieldName.thread_title => truthyS q.thread_title
  | FieldName.thread_section_title => truthyS q.thread_section_title
  | FieldName.language => truthyS q.language
  | FieldName.thread_country => truthyS q.thread_country
  | FieldName.direct n => truthyS (q.directVal n)
  | FieldName.list n => !(q.listVal n).isEmpty

/-- Clause contributed by one field to the rendered query string,
written from the specification rendering steps 1-11: free text
verbatim, phrase quoted, some-terms as a space-to-OR parenthesized
group, exclude negated with a dash, the `is_first:true` literal, the
four scoped bespoke fields, then `field:value` for direct fields and
parenthesized OR-groups for list fields; an unset field contributes
nothing. -/
def clauseOf (q : Query) : FieldName → List String
  | FieldName.all_terms => if truthyS q.all_terms then [getS q.all_terms] else []
  | FieldName.exact_phrase => if truthyS q.exact_phrase then ["\"" ++ getS q.exact_phrase ++ "\""] else []
  | FieldName.some_terms => if truthyS q.some_terms then ["(" ++ pyReplaceSpace (getS q.some_terms) " OR " ++ ")"] else []
  | FieldName.exclude => if truthyS q.exclude then ["-" ++ getS q.exclude] else []
  | FieldName.is_first => if q.is_first then ["is_first:true"] else []
  | FieldName.thread_title => if truthyS q.thread_title then ["thread.title:(" ++ getS q.thread_title ++ ")"] else []
  | FieldName.thread_section_title => if truthyS q.thread_section_title then ["thread.section_title:(" ++ getS q.thread_section_title ++ ")"] else []
  | FieldName.language => if truthyS q.language then ["language:(" ++ getS q.language ++ ")"] else []
  | FieldName.thread_country => if truthyS q.thread_country then ["thread.country:" ++ getS q.thread_country] else []
  | FieldName.direct n => if truthyS (q.directVal n) then [q.direct_string n] else []
  | FieldName.list n => if !(q.listVal n).isEmpty then [q.list_string n] else []

/-- Fixed precedence order of the fields in the rendered string: the
nine bespoke fields, then the direct fields, then the list fields. -/
def fieldOrder (q : Query) : List FieldName :=
  [FieldName.all_terms, FieldName.exact_phrase, FieldName.some_terms, FieldName.exclude,
   FieldName.is_first, FieldName.thread_title, FieldName.thread_section_title,
   FieldName.language, FieldName.thread_country]
  ++ q.directNames.map FieldName.direct
  ++ q.listNames.map FieldName.list

/-- Query with every field unset, as built by `Query()` with no
keyword arguments (all attributes are set to `None`). -/
def emptyQuery : Query where
  all_terms := Option.none
  exact_phrase := Option.none
  some_terms := Option.none
  exclude := Option.none
  is_first := false
  thread_title := Option.none
  thread_section_title := Option.none
  language := Option.none
  thread_country := Option.none
  directNames := ["author"]
  directVal := fun _ => Option.none
  listNames := ["site"]
  listVal := fun _ => []

/-- Query with only the some-terms field set to the three words of the
specification example. -/
def someTermsQuery : Query :=
  { emptyQuery with some_terms := some "a b c" }

/-- Query with every kind of field set, used to exhibit the full
rendering order on a concrete input. -/
def fullQuery : Query where
  all_terms := some "cats dogs"
  exact_phrase := some "hello world"
  some_terms := some "a b c"
  exclude := some "spam"
  is_first := true
  thread_title := some "tt"
  thread_section_title := some "sec"
  language := some "english"
  thread_country := some "US"
  directNames := ["author", "site_type"]
  directVal := fun n => if n = "author" then some "me" else if n = "site_type" then some "news" else Option.none
  listNames := ["site", "site_category"]
  listVal := fun n => if n = "site" then ["a", "b"] else if n = "site_category" then ["x"] else []

/-- Query whose only stored value is the site list obtained by
assigning the single string of the specification example through
`__setattr__`. -/
def siteStringQuery : Query :=
  { emptyQuery with listVal := fun n => if n = "site" then asList (setattr_value "site" ["site"] (PyVal.str "cnn.com")) else [] }

/-- Query whose only set field is the site list with two values. -/
def sitePairQuery : Query :=
  { emptyQuery with listVal := fun n => if n = "site" then ["a", "b"] else [] }

/-- Query whose site list field holds the empty list (falsy, treated
as unset by the source filter). -/
def emptySiteQuery : Query :=
  { emptyQuery with listVal := fun _ => [] }

/-- The scalar string fields among the bespoke fields, used to state
that an empty-string value renders exactly like an unset one. -/
inductive ScalarField where
  | all_terms
  | exact_phrase
  | some_terms
  | exclude
  | thread_title
  | thread_section_title
  | language
  | thread_country
deriving DecidableEq

/-- Replace the value of one bespoke scalar field of a query. -/
def setScalar (q : Query) (f : ScalarField) (v : Option String) : Query :=
  match f with
  | ScalarField.all_terms => { q with all_terms := v }
  | ScalarField.exact_phrase => { q with exact_phrase := v }
  | ScalarField.some_terms => { q with some_terms := v }
  | ScalarField.exclude => { q with exclude := v }
  | ScalarField.thread_title => { q with thread_title := v }
  | ScalarField.thread_section_title => { q with thread_section_title := v }
  | ScalarField.language => { q with language := v }
  | ScalarField.thread_country => { q with thread_country := v }

/-- Python exception classes raised by the modelled code paths.
`keyError` and `indexError` are the `LookupError` subclasses; the
`attributeError` arises from calling a method on `None`; the
`typeError` arises from calling `Post(post)` with a positional
argument against the keyword-only `Post.__init__(self, **post)`. -/
inductive PyError where
  | keyError
  | indexError
  | attributeError
  | typeError
deriving DecidableEq

/-- Whether a raised exception is a Python `LookupError`
(`KeyError` or `IndexError`). -/
def isLookupError : PyError → Bool
  | PyError.keyError => true
  | PyError.indexError => true
  | PyError.attributeError => false
  | PyError.typeError => false

/-- Modelled from the Python 2 `urlparse.urlsplit`: the query component
of a URL string is everything after the first question mark, once a
fragment (everything from the first hash sign on) has been removed. -/
def urlQuery (u : String) : String :=
  let noFrag := (pySplitChar u '#').headD ""
  match pySplitChar noFrag '?' with
  | [] => ""
  | _ :: rest => String.intercalate "?" rest

/-- Modelled from the Python 2 `urlparse.parse_qsl` with default
options: pairs are split on ampersands and semicolons, a pair without
an equals sign or with an empty value is dropped, the value is
everything after the first equals sign.  Percent-decoding and
plus-to-space decoding are not modelled (every value in this
development is plain digits, on which they are the identity). -/
def parse_qsl (qs : String) : List (String × String) :=
  (((pySplitChar qs '&').map (fun s => pySplitChar s ';')).flatten).filterMap (fun nv =>
    if nv = "" then Option.none
    else
      match pySplitChar nv '=' with
      | [] => Option.none
      | [_] => Option.none
      | name :: rest =>
        let value := String.intercalate "=" rest
        if value = "" then Option.none else some (name, value))

/-- Insert one name-value pair into the grouped dictionary, appending
to the value list of an existing name and preserving insertion order. -/
def addPair (d : List (String × List String)) (p : String × String) : List (String × List String) :=
  if d.any (fun e => e.1 = p.1) then
    d.map (fun e => if e.1 = p.1 then (e.1, e.2 ++ [p.2]) else e)
  else d ++ [(p.1, [p.2])]

/-- Modelled from the Python 2 `urlparse.parse_qs`: the parsed pairs
grouped into a dictionary from name to list of values. -/
def parse_qs (qs : String) : List (String × List String) :=
  (parse_qsl qs).foldl addPair []

/-- Translation of the `Session` object state: the configured default
token (the underlying `requests.Session` carries no modelled state). -/
structure Session where
  token : Option String
deriving DecidableEq

/-- A raw post object of the JSON `posts` array.  The claims treat
posts as opaque data, so the `Post`/`Thread` field parsing of the
source is not modelled beyond wrapping the raw object. -/
structure Post where
  raw : String
deriving DecidableEq

/-- The JSON `next` field of a page: absent from the object, the JSON
`null`, or a URL string. -/
inductive JsonNext where
  | absent
  | null
  | str (s : String)
deriving DecidableEq

/-- The JSON body of one result page, with the fields the source
reads.  The other three scalar fields are taken as always present,
since only the `next` field varies in the claims. -/
structure PageJson where
  totalResults : Int
  next : JsonNext
  requestsLeft : Int
  moreResultsAvailable : Int
  posts : List Post
deriving DecidableEq

/-- The raw HTTP result the source stores: request URL, status code,
body text, and the decoded JSON body. -/
structure HttpResponse where
  url : String
  status_code : Nat
  text : String
  json : PageJson
deriving DecidableEq

/-- Translation of the `Response` object fields set by
`Response.__init__`. -/
structure Response where
  response : HttpResponse
  session : Session
  total : Int
  next : String
  next_ts : String
  left : Int
  more : Int
  posts : List Post
deriving DecidableEq

/-- Reading `json['next']`: an absent key raises `KeyError`; `null`
reads as `None` and a string as itself. -/
def jsonNextGet : JsonNext → Except PyError (Option String)
  | JsonNext.absent => Except.error PyError.keyError
  | JsonNext.null => Except.ok Option.none
  | JsonNext.str s => Except.ok (some s)

/-- Modelled from the Python 2 `urlparse.urljoin` as used on a nonempty
base URL: a `None` or empty next URL returns the base unchanged, and a
nonempty next URL is taken as absolute (relative-reference resolution
is not modelled, since no claim depends on the joined value). -/
def urljoin (base : String) (url : Option String) : String :=
  match url with
  | Option.none => base
  | some u => if u = "" then base else u

/-- Translation of `Response.extract_next_ts` on the value of
`json['next']`: `urlparse(None)` raises `AttributeError` (Python 2 calls
`find` on the `None` object); otherwise the query parameters of the
URL are parsed and `params['ts'][0]` is returned, raising `KeyError`
when there is no `ts` parameter (and `IndexError` on an empty value
list, which `parse_qs` never produces). -/
def extract_next_ts (resource : Option String) : Except PyError String :=
  match resource with
  | Option.none => Except.error PyError.attributeError
  | some s =>
    match (parse_qs (urlQuery s)).lookup "ts" with
    | some (v :: _) => Except.ok v
    | some [] => Except.error PyError.indexError
    | Option.none => Except.error PyError.keyError

/-- Translation of the posts loop of `Response.__init__`
(lines 80-82): each iteration calls `Post(post)`, passing the raw dict
as a positional argument to `Post.__init__(self, **post)`, which
accepts keyword arguments only — a `TypeError` on the first element,
so the loop completes only on an empty posts array. -/
def buildPosts : List Post → Except PyError (List Post)
  | [] => Except.ok []
  | _ :: _ => Except.error PyError.typeError

/-- Translation of `Response.__init__`: stores the raw HTTP result and
the session, copies the four scalar JSON fields, resolves the next-page
URL against the request URL, extracts the cursor timestamp from the raw
`next` value, and runs the posts loop.  The first exception raised
while reading `json['next']`, extracting the timestamp, or
constructing a `Post` aborts the construction. -/
def mkResponse (sess : Session) (r : HttpResponse) : Except PyError Response :=
  match jsonNextGet r.json.next with
  | Except.error e => Except.error e
  | Except.ok nextRaw =>
    match extract_next_ts nextRaw with
    | Except.error e => Except.error e
    | Except.ok ts =>
      match buildPosts r.json.posts with
      | Except.error e => Except.error e
      | Except.ok ps =>
        Except.ok
          { response := r
            session := sess
            total := r.json.totalResults
            next := urljoin r.url nextRaw
            next_ts := ts
            left := r.json.requestsLeft
            more := r.json.moreResultsAvailable
            posts := ps }

/-- Translation of `Session.get`: one HTTP GET through the transport
oracle `http`, wrapped in a `Response`. -/
def Session.get (sess : Session) (http : String → HttpResponse) (url : String) : Except PyError Response :=
  mkResponse sess (http url)

/-- Translation of `Response.get_next`: fetch the stored next-page URL
through the stored session. -/
def Response.get_next (r : Response) (http : String → HttpResponse) : Except PyError Response :=
  r.session.get http r.next

/-- Translation of the six assignments of `Response.__iter__`
(lines 101-106): the page fields of `self` are overwritten with the
fields of the freshly fetched response; the other fields keep their
values. -/
def advanceSelf (self response : Response) : Response :=
  { self with
      total := response.total
      next := response.next
      left := response.left
      more := response.more
      posts := response.posts
      next_ts := response.next_ts }

/-- Translation of the loop of `Response.__iter__`, with explicit fuel
for the unbounded `while True`.  Returns the posts yielded in order,
the list of next-page URLs fetched, the final state of the `self`
object, and the exception (if any) that aborted the iteration while
fetching a page.  Fuel zero models an iteration cut off before
inspecting the current page. -/
def iterLoop (http : String → HttpResponse) : Nat → Response → Response → List Post × List String × Response × Option PyError
  | 0, self, _ => ([], [], self, Option.none)
  | fuel + 1, self, response =>
    if response.more = 0 then (response.posts, [], self, Option.none)
    else
      match response.get_next http with
      | Except.error e => (response.posts, [response.next], self, some e)
      | Except.ok r2 =>
        let self2 := advanceSelf self r2
        let rest := iterLoop http fuel self2 r2
        (response.posts ++ rest.1, response.next :: rest.2.1, rest.2.2.1, rest.2.2.2)

/-- Entry point of `Response.__iter__`: the loop starts with the local
`response` aliasing `self`. -/
def Response.iterate (self : Response) (http : String → HttpResponse) (fuel : Nat) : List Post × List String × Response × Option PyError :=
  iterLoop http fuel self self

/-- Argument accepted by `Session.search`: a `Query` object (rendered
through `query_string`) or a raw query string. -/
inductive QueryArg where
  | qobj (q : Query)
  | raw (s : String)

/-- The rendered query sent in the request: `type(query) is Query`
triggers rendering, a raw string passes through. -/
def searchQString : QueryArg → String
  | QueryArg.qobj q => q.query_string
  | QueryArg.raw s => s

/-- Python `a or b` on optional strings: a truthy left operand wins,
`None` and the empty string fall through to the right operand. -/
def pyOr (a b : Option String) : Option String :=
  match a with
  | some s => if s = "" then b else some s
  | Option.none => b

/-- The request parameters `Session.search` builds: the rendered
query, the effective token (`token or self.token`), and the `ts`
parameter added only when `since` is truthy. -/
structure SearchParams where
  q : String
  token : Option String
  ts : Option String
deriving DecidableEq

/-- Translation of the parameter dictionary of `Session.search`
(lines 156-162). -/
def searchParams (sessToken : Option String) (query : QueryArg) (token : Option String) (since : Option String) : SearchParams :=
  { q := searchQString query
    token := pyOr token sessToken
    ts := match since with
          | some s => if s = "" then Option.none else some s
          | Option.none => Option.none }

/-- Outcome of one `Session.search` call: the `TokenMissingException`,
the generic `Exception(response.text)` on a non-200 status, an
exception propagated from the `Response` construction, or the built
`Response`. -/
inductive SearchOutcome where
  | tokenMissing (msg : String)
  | requestError (body : String)
  | respError (e : PyError)
  | ok (resp : Response)
deriving DecidableEq

/-- Translation of `Session.search` (lines 149-167): raise
`TokenMissingException` when neither the call token nor the session
token is present (`is None` checks), render the query, build the
parameters, issue the GET through the transport oracle, raise the
generic exception carrying the body text on a non-200 status, and
otherwise construct the `Response`. -/
def Session.search (sess : Session) (query : QueryArg) (token : Option String) (since : Option String) (http : SearchParams → HttpResponse) : SearchOutcome :=
  if token = Option.none ∧ sess.token = Option.none then
    SearchOutcome.tokenMissing "No token defined for webhose API request"
  else
    let r := http (searchParams sess.token query token since)
    if r.status_code ≠ 200 then SearchOutcome.requestError r.text
    else
      match mkResponse sess r with
      | Except.error e => SearchOutcome.respError e
      | Except.ok resp => SearchOutcome.ok resp

/-- Whether a search outcome is the raised `TokenMissingException`. -/
def isTokenMissing : SearchOutcome → Bool
  | SearchOutcome.tokenMissing _ => true
  | _ => false

/-- Numeric value of a decimal digit character. -/
def dv (c : Char) : Nat :=
  c.toNat - 48

/-- Gregorian leap-year test, as in the Python `datetime` module. -/
def isLeap (y : Nat) : Bool :=
  y % 4 = 0 && (y % 100 ≠ 0 || y % 400 = 0)

/-- Length of a month in the proleptic Gregorian calendar. -/
def daysInMonth (y m : Nat) : Nat :=
  if m = 2 then (if isLeap y then 29 else 28)
  else if m = 4 ∨ m = 6 ∨ m = 9 ∨ m = 11 then 30
  else 31

/-- Days in the months of year `y` strictly before month `m`. -/
def daysBeforeMonth (y m : Nat) : Nat :=
  (List.range (m - 1)).foldl (fun a i => a + daysInMonth y (i + 1)) 0

/-- Proleptic Gregorian ordinal of a date, day 1 being January 1 of
year 1, as in `datetime.date.toordinal`. -/
def toOrdinal (y m d : Nat) : Nat :=
  365 * (y - 1) + (y - 1) / 4 - (y - 1) / 100 + (y - 1) / 400 + daysBeforeMonth y m + d

/-- A naive `datetime` on the timeline, as the count of seconds from
the start of year 1; `timedelta` subtraction is integer subtraction on
this timeline. -/
def naiveSeconds (y m d h mi s : Nat) : Int :=
  ((toOrdinal y m d) * 86400 + h * 3600 + mi * 60 + s : Nat)

/-- Modelled from the `datetime.strptime(_, "%Y-%m-%dT%H:%M:%S")` call:
parses a zero-padded `YYYY-MM-DDTHH:MM:SS` character sequence and
validates the field ranges exactly as the `datetime` constructor does,
returning `none` where Python raises `ValueError`.  (The C `strptime`
also accepts unpadded fields; the inputs of this development are all
zero-padded, where the two agree.) -/
def strptimeYmdHMS (l : List Char) : Option (Nat × Nat × Nat × Nat × Nat × Nat) :=
  match l with
  | [y1, y2, y3, y4, a, m1, m2, b, d1, d2, c, h1, h2, e, i1, i2, f, s1, s2] =>
    if a = '-' ∧ b = '-' ∧ c = 'T' ∧ e = ':' ∧ f = ':'
        ∧ y1.isDigit = true ∧ y2.isDigit = true ∧ y3.isDigit = true ∧ y4.isDigit = true
        ∧ m1.isDigit = true ∧ m2.isDigit = true ∧ d1.isDigit = true ∧ d2.isDigit = true
        ∧ h1.isDigit = true ∧ h2.isDigit = true ∧ i1.isDigit = true ∧ i2.isDigit = true
        ∧ s1.isDigit = true ∧ s2.isDigit = true then
      if 1 ≤ dv y1 * 1000 + dv y2 * 100 + dv y3 * 10 + dv y4
          ∧ 1 ≤ dv m1 * 10 + dv m2 ∧ dv m1 * 10 + dv m2 ≤ 12
          ∧ 1 ≤ dv d1 * 10 + dv d2
          ∧ dv d1 * 10 + dv d2
              ≤ daysInMonth (dv y1 * 1000 + dv y2 * 100 + dv y3 * 10 + dv y4) (dv m1 * 10 + dv m2)
          ∧ dv h1 * 10 + dv h2 ≤ 23 ∧ dv i1 * 10 + dv i2 ≤ 59 ∧ dv s1 * 10 + dv s2 ≤ 59 then
        some (dv y1 * 1000 + dv y2 * 100 + dv y3 * 10 + dv y4, dv m1 * 10 + dv m2,
              dv d1 * 10 + dv d2, dv h1 * 10 + dv h2, dv i1 * 10 + dv i2, dv s1 * 10 + dv s2)
      else Option.none
    else Option.none
  | _ => Option.none

/-- Modelled from the Python `int()` constructor on the unsigned digit
substrings the source slices out: `none` where Python raises
`ValueError` (empty or non-digit input). -/
def pyIntChars (l : List Char) : Option Nat :=
  if l ≠ [] ∧ l.all Char.isDigit = true then
    some (l.foldl (fun a c => a * 10 + dv c) 0)
  else Option.none

/-- Earliest `datetime` value, `0001-01-01T00:00:00`, on the seconds
timeline. -/
def datetimeMinSeconds : Int :=
  naiveSeconds 1 1 1 0 0 0

/-- Latest integer-second `datetime` value, `9999-12-31T23:59:59`, on
the seconds timeline. -/
def datetimeMaxSeconds : Int :=
  naiveSeconds 9999 12 31 23 59 59

/-- The `dt - offset` subtraction of `datetime` minus `timedelta`
(line 173): the result must stay within the supported `datetime`
range, year 1 through 9999; outside it Python raises `OverflowError`,
modelled as `none`. -/
def dtSub (naive offsetSeconds : Int) : Option Int :=
  if datetimeMinSeconds ≤ naive - offsetSeconds ∧ naive - offsetSeconds ≤ datetimeMaxSeconds then
    some (naive - offsetSeconds)
  else Option.none

/-- Offset part of `parse_iso8601`, given the parsed naive timestamp:
the offset sign is the character at index 23 (any character other than
a plus sign selects the negative sign), the offset hours and minutes
are `int(str_date[24:26])` and `int(str_date[27:29])`, and the signed
offset is subtracted from the naive timestamp through the
range-checked `datetime` subtraction. -/
def parseOffsetPart (l : List Char) : Option (Nat × Nat × Nat × Nat × Nat × Nat) → Option Int
  | Option.none => Option.none
  | some (y, m, d, h, mi, se) =>
    match l.get? 23, pyIntChars ((l.drop 24).take 2), pyIntChars ((l.drop 27).take 2) with
    | some sgn, some oh, some om =>
      dtSub (naiveSeconds y m d h mi se)
        ((if sgn = '+' then (1 : Int) else -1) * (oh * 3600 + om * 60))
    | _, _, _ => Option.none

/-- Translation of `parse_iso8601` on a Python string as a character
sequence: `str_date[:-10]` is parsed with `strptime`, then the offset
read from the fixed positions 23 to 28 is subtracted.  Any failing
step (`ValueError`, `IndexError`, or the `OverflowError` of the
`datetime` subtraction) yields `none`. -/
def parse_iso8601_chars (l : List Char) : Option Int :=
  parseOffsetPart l (strptimeYmdHMS (l.take (l.length - 10)))

/-- Translation of `parse_iso8601` on a Lean string. -/
def parse_iso8601 (s : String) : Option Int :=
  parse_iso8601_chars s.data

/-- Two-digit zero-padded decimal rendering of a number below 100. -/
def pad2 (n : Nat) : List Char :=
  [Char.ofNat (48 + n / 10 % 10), Char.ofNat (48 + n % 10)]

/-- Four-digit zero-padded decimal rendering of a number below 10000. -/
def pad4 (n : Nat) : List Char :=
  [Char.ofNat (48 + n / 1000 % 10), Char.ofNat (48 + n / 100 % 10),
   Char.ofNat (48 + n / 10 % 10), Char.ofNat (48 + n % 10)]

/-- A canonical 29-character timestamp
`YYYY-MM-DDTHH:MM:SS.fff+HH:MM` with an arbitrary three-character
fractional part and an explicit numeric offset. -/
def isoChars (y m d h mi se : Nat) (f1 f2 f3 : Char) (plus : Bool) (oh om : Nat) : List Char :=
  pad4 y ++ '-' :: pad2 m ++ '-' :: pad2 d ++ 'T' :: pad2 h ++ ':' :: pad2 mi ++ ':' :: pad2 se
    ++ '.' :: f1 :: f2 :: f3 :: (if plus then '+' else '-') :: pad2 oh ++ ':' :: pad2 om

/-- Concrete session with a configured default token. -/
def sess0 : Session :=
  { token := some "tok" }

/-- Concrete well-formed HTTP result: status 200, a next URL carrying a
`ts` parameter, one more page available, and an empty posts array (the
only shape on which the posts loop of the constructor completes). -/
def rGood : HttpResponse :=
  { url := "http://webhose.io/search"
    status_code := 200
    text := "ok-body"
    json := { totalResults := 7
              next := JsonNext.str "http://webhose.io/search?ts=333"
              requestsLeft := 6
              moreResultsAvailable := 1
              posts := [] } }

/-- Transport oracle answering every search request with `rGood`. -/
def httpGood : SearchParams → HttpResponse :=
  fun _ => rGood

/-- The `Response` built from `rGood` under `sess0`. -/
def respGood : Response :=
  { response := rGood
    session := sess0
    total := 7
    next := "http://webhose.io/search?ts=333"
    next_ts := "333"
    left := 6
    more := 1
    posts := [] }

/-- Concrete HTTP result with status 200 whose JSON page has no `next`
key at all. -/
def rBad : HttpResponse :=
  { url := "http://webhose.io/search"
    status_code := 200
    text := "bad-body"
    json := { totalResults := 1
              next := JsonNext.absent
              requestsLeft := 1
              moreResultsAvailable := 0
              posts := [] } }

/-- Transport oracle answering every search request with `rBad`. -/
def httpBad : SearchParams → HttpResponse :=
  fun _ => rBad

/-- Concrete last page (`moreResultsAvailable = 0`) whose JSON `next`
field is `null`. -/
def rNull : HttpResponse :=
  { url := "http://webhose.io/search"
    status_code := 200
    text := "last"
    json := { totalResults := 3
              next := JsonNext.null
              requestsLeft := 2
              moreResultsAvailable := 0
              posts := [] } }

/-- Concrete page whose `next` URL has query parameters but no `ts`. -/
def rNoTs : HttpResponse :=
  { url := "http://webhose.io/search"
    status_code := 200
    text := "no-ts"
    json := { totalResults := 1
              next := JsonNext.str "http://webhose.io/search?p=2"
              requestsLeft := 1
              moreResultsAvailable := 0
              posts := [] } }

/-- Concrete exhausted `Response`: `more = 0`, two posts. -/
def respLast : Response :=
  { response := rGood
    session := sess0
    total := 7
    next := "http://webhose.io/search?ts=1"
    next_ts := "1"
    left := 6
    more := 0
    posts := [{ raw := "p1" }, { raw := "p2" }] }

/-- Transport oracle for iterations that must never fetch. -/
def httpNone : String → HttpResponse :=
  fun _ => rGood

/-- Concrete HTTP result of the second page: a last page with an empty
posts array (the only shape the constructor completes on). -/
def r2http : HttpResponse :=
  { url := "http://webhose.io/search?ts=111"
    status_code := 200
    text := "b2"
    json := { totalResults := 5
              next := JsonNext.str "http://webhose.io/search?ts=222"
              requestsLeft := 5
              moreResultsAvailable := 0
              posts := [] } }

/-- Transport oracle serving `r2http` for the next-page fetch. -/
def http2 : String → HttpResponse :=
  fun _ => r2http

/-- Concrete first page with one more page available. -/
def respFirst : Response :=
  { response := rGood
    session := sess0
    total := 7
    next := "http://webhose.io/search?ts=111"
    next_ts := "111"
    left := 6
    more := 1
    posts := [{ raw := "p1" }] }

/-- The `Response` built from `r2http` under `sess0`. -/
def resp2 : Response :=
  { response := r2http
    session := sess0
    total := 5
    next := "http://webhose.io/search?ts=222"
    next_ts := "222"
    left := 5
    more := 0
    posts := [] }

/- ===================== theorems ===================== -/

theorem flatten_map_ite {α β : Type} (p : α → Bool) (f : α → β) (l : List α) :
    (l.map (fun a => if p a then [f a] else [])).flatten = (l.filter p).map f := by
  induction l with
  | nil => rfl
  | cons a t ih =>
    cases h : p a <;> simp [List.filter_cons, h, ih]

theorem clauses_decomp (q : Query) :
    q.clauses = ((fieldOrder q).map (clauseOf q)).flatten := by
  have hd : (List.map (clauseOf q ∘ FieldName.direct) q.directNames).flatten
      = List.map q.direct_string (List.filter (fun n => truthyS (q.directVal n)) q.directNames) := by
    rw [show (clauseOf q ∘ FieldName.direct)
          = (fun n => if truthyS (q.directVal n) then [q.direct_string n] else []) from rfl,
        flatten_map_ite]
  have hl : (List.map (clauseOf q ∘ FieldName.list) q.listNames).flatten
      = List.map q.list_string (List.filter (fun n => !(q.listVal n).isEmpty) q.listNames) := by
    rw [show (clauseOf q ∘ FieldName.list)
          = (fun n => if !(q.listVal n).isEmpty then [q.list_string n] else []) from rfl,
        flatten_map_ite]
  simp only [Query.clauses, fieldOrder, clauseOf, List.map_append, List.flatten_append,
    List.map_map, List.map_cons, List.map_nil, List.flatten_cons,
    List.flatten_nil, List.append_nil, List.append_assoc, hd, hl]

/-- C1: `query_string` renders the clauses in the fixed
specification order (steps 1 through 11), each appended only when its
field is set, joined with single spaces; a query with only some-terms
set to the string of three words renders exactly as the parenthesized
OR-group, and a query with every kind of field set renders the clauses
of all eleven steps in order. -/
theorem c1_query_string_render :
    (∀ q : Query, q.query_string = String.intercalate " " (((fieldOrder q).map (clauseOf q)).flatten))
    ∧ someTermsQuery.query_string = "(a OR b OR c)"
    ∧ fullQuery.query_string
        = "cats dogs \"hello world\" (a OR b OR c) -spam is_first:true thread.title:(tt) thread.section_title:(sec) language:(english) thread.country:US author:me site_type:news (site:a OR site:b) (site_category:x)" := by
  refine ⟨fun q => ?_, ?_, ?_⟩
  · rw [Query.query_string, clauses_decomp]
  · rfl
  · rfl

/-- C2: a string assigned to a list field is normalized to a
one-element list, and a set list field renders as a parenthesized
OR-group over every value: site assigned the string of the
specification example renders as a one-element group, and a two-value
site list renders as a two-element OR-group. -/
theorem c2_list_field_normalization :
    (∀ (name : String) (listNames : List String) (s : String), name ∈ listNames →
        setattr_value name listNames (PyVal.str s) = PyVal.list [s])
    ∧ setattr_value "site" ["site"] (PyVal.str "cnn.com") = PyVal.list ["cnn.com"]
    ∧ siteStringQuery.query_string = "(site:cnn.com)"
    ∧ sitePairQuery.query_string = "(site:a OR site:b)" := by
  refine ⟨?_, rfl, rfl, rfl⟩
  intro name listNames s h
  simp [setattr_value, h]

theorem c2_list_field_normalization_witness :
    "site" ∈ ["site", "language"]
    ∧ setattr_value "site" ["site", "language"] (PyVal.str "cnn.com") = PyVal.list ["cnn.com"] :=
  ⟨by decide, c2_list_field_normalization.1 "site" ["site", "language"] "cnn.com" (by decide)⟩

/-- C3: the rendered query string decomposes as the space-join of the
per-field clause lists in the fixed field order, and an unset field
contributes the empty clause list, so no clause for it appears
anywhere in the output. -/
theorem c3_unset_fields_omitted :
    ∀ (q : Query) (f : FieldName),
      q.query_string = String.intercalate " " (((fieldOrder q).map (clauseOf q)).flatten)
      ∧ (isSet q f = false → clauseOf q f = []) := by
  intro q f
  refine ⟨by rw [Query.query_string, clauses_decomp], ?_⟩
  intro h
  cases f <;> simp only [isSet] at h <;> simp [clauseOf, h]

theorem c3_unset_fields_omitted_witness :
    emptyQuery.query_string
        = String.intercalate " " (((fieldOrder emptyQuery).map (clauseOf emptyQuery)).flatten)
    ∧ isSet emptyQuery FieldName.language = false
    ∧ clauseOf emptyQuery FieldName.language = [] :=
  ⟨(c3_unset_fields_omitted emptyQuery FieldName.language).1, rfl,
   (c3_unset_fields_omitted emptyQuery FieldName.language).2 rfl⟩

/-- C10: a falsy field value renders exactly like an unset one: an
empty string in any bespoke scalar field gives the same rendering as
`None`, a false is-first flag contributes no clause, and an empty list
field contributes no clause — in particular a query whose only stored
list field is empty renders as the empty string, not as an ill-formed
empty group. -/
theorem c10_falsy_renders_as_unset :
    (∀ (q : Query) (f : ScalarField),
        (setScalar q f (some "")).query_string = (setScalar q f Option.none).query_string)
    ∧ (∀ q : Query, q.is_first = false → clauseOf q FieldName.is_first = [])
    ∧ (∀ (q : Query) (n : String), q.listVal n = [] → clauseOf q (FieldName.list n) = [])
    ∧ emptySiteQuery.query_string = ""
    ∧ emptySiteQuery.query_string ≠ "()" := by
  refine ⟨?_, ?_, ?_, rfl, by decide⟩
  · intro q f
    cases f <;> rfl
  · intro q h
    simp [clauseOf, h]
  · intro q n h
    simp [clauseOf, h]

theorem isTokenMissing_branch (sess : Session) (r : HttpResponse) :
    isTokenMissing
      (if r.status_code ≠ 200 then SearchOutcome.requestError r.text
       else
         match mkResponse sess r with
         | Except.error e => SearchOutcome.respError e
         | Except.ok resp => SearchOutcome.ok resp) = false := by
  split
  · rfl
  · split <;> rfl

theorem mkResponse_ok_fields {sess : Session} {r : HttpResponse} {resp : Response}
    (h : mkResponse sess r = Except.ok resp) : resp.response = r ∧ resp.session = sess := by
  unfold mkResponse at h
  split at h
  · exact absurd h (by simp)
  · split at h
    · exact absurd h (by simp)
    · split at h
      · exact absurd h (by simp)
      · injection h with h2
        subst h2
        exact ⟨rfl, rfl⟩

/-- C4 (amended): `Session.search` raises `TokenMissingException` iff
both the call-site token and the session default are `None`; the
effective token sent in the parameters is the call-site token when it
is truthy (non-empty), while an empty-string call-site token falls
back to the session default (Python `or`). -/
theorem c4_token_resolution :
    ∀ (sess : Session) (query : QueryArg) (token since : Option String)
      (http : SearchParams → HttpResponse),
      (isTokenMissing (sess.search query token since http) = true
        ↔ (token = Option.none ∧ sess.token = Option.none))
      ∧ (∀ t : String, token = some t → t ≠ "" →
          (searchParams sess.token query token since).token = some t)
      ∧ (token = some "" → (searchParams sess.token query token since).token = sess.token) := by
  intro sess query token since http
  refine ⟨?_, ?_, ?_⟩
  · simp only [Session.search]
    by_cases hc : token = Option.none ∧ sess.token = Option.none
    · rw [if_pos hc]
      simp [isTokenMissing, hc]
    · rw [if_neg hc, isTokenMissing_branch]
      simp [hc]
  · intro t ht hne
    subst ht
    simp [searchParams, pyOr, hne]
  · intro h0
    subst h0
    simp [searchParams, pyOr]

/-- C4 counterexample: with an empty-string call-site token and a
configured session default, the effective token sent is the session
default, not the call-site token, so a given call-site token does not
always take precedence. -/
theorem c4_counterexample :
    (searchParams (some "session-token") (QueryArg.raw "cats") (some "") Option.none).token
        = some "session-token"
    ∧ ¬ ((searchParams (some "session-token") (QueryArg.raw "cats") (some "") Option.none).token
        = some "") := by
  constructor
  · rfl
  · decide

theorem c4_token_resolution_witness :
    (isTokenMissing (sess0.search (QueryArg.raw "q") (some "tk") Option.none httpGood) = true
      ↔ (some "tk" = Option.none ∧ sess0.token = Option.none))
    ∧ (searchParams sess0.token (QueryArg.raw "q") (some "tk") Option.none).token = some "tk" :=
  ⟨(c4_token_resolution sess0 (QueryArg.raw "q") (some "tk") Option.none httpGood).1,
   (c4_token_resolution sess0 (QueryArg.raw "q") (some "tk") Option.none httpGood).2.1
      "tk" rfl (by decide)⟩

/-- C5 (amended): with a resolvable token, a non-200 status makes
`Session.search` raise the generic request error carrying the response
body text; with status 200 and a page on which the `Response`
construction succeeds, `search` returns that `Response`, which wraps
the raw HTTP result (the construction itself can instead raise: a
lookup or attribute error from the cursor extraction, or the
`TypeError` of the posts loop on any non-empty posts array). -/
theorem c5_status_handling :
    ∀ (sess : Session) (query : QueryArg) (token since : Option String)
      (http : SearchParams → HttpResponse),
      ¬ (token = Option.none ∧ sess.token = Option.none) →
      ((http (searchParams sess.token query token since)).status_code ≠ 200 →
        sess.search query token since http
          = SearchOutcome.requestError (http (searchParams sess.token query token since)).text)
      ∧ ((http (searchParams sess.token query token since)).status_code = 200 →
        ∀ resp : Response,
          mkResponse sess (http (searchParams sess.token query token since)) = Except.ok resp →
          sess.search query token since http = SearchOutcome.ok resp
          ∧ resp.response = http (searchParams sess.token query token since)) := by
  intro sess query token since http h
  constructor
  · intro hst
    simp only [Session.search]
    rw [if_neg h, if_pos hst]
  · intro hst resp hmk
    refine ⟨?_, (mkResponse_ok_fields hmk).1⟩
    simp only [Session.search]
    rw [if_neg h, if_neg (by simp [hst]), hmk]

/-- C5 counterexample: a search whose HTTP GET returns status 200 on a
page without a `next` key does not return a `Response` at all — the
construction raises a `KeyError` which propagates out of `search`. -/
theorem c5_counterexample :
    (httpBad (searchParams (some "tok") (QueryArg.raw "cats") Option.none Option.none)).status_code
        = 200
    ∧ sess0.search (QueryArg.raw "cats") Option.none Option.none httpBad
        = SearchOutcome.respError PyError.keyError := by
  constructor <;> rfl

theorem c5_status_handling_witness :
    sess0.search (QueryArg.raw "cats") (some "tk") Option.none httpGood = SearchOutcome.ok respGood
    ∧ respGood.response
        = httpGood (searchParams sess0.token (QueryArg.raw "cats") (some "tk") Option.none) :=
  (c5_status_handling sess0 (QueryArg.raw "cats") (some "tk") Option.none httpGood
      (by simp)).2 rfl respGood rfl

/-- C6: iterating a `Response` whose page reports `more = 0` yields
exactly that page's posts in page order, fetches no further page, and
leaves the object unchanged: the exhausted state is terminal and is
entered immediately. -/
theorem c6_last_page_iteration :
    ∀ (self : Response) (http : String → HttpResponse) (fuel : Nat),
      self.more = 0 → 0 < fuel →
      self.iterate http fuel = (self.posts, [], self, Option.none) := by
  intro self http fuel h hf
  cases fuel with
  | zero => exact absurd hf (by simp)
  | succ n => simp [Response.iterate, iterLoop, h]

theorem c6_last_page_iteration_witness :
    respLast.more = 0
    ∧ respLast.iterate httpNone 1 = (respLast.posts, [], respLast, Option.none) :=
  ⟨rfl, c6_last_page_iteration respLast httpNone 1 rfl (by decide)⟩

/-- C8: when the iterator advances past a page (`more` nonzero), it
fetches the stored next-page URL and the loop continues on a `self`
state in which exactly the six page fields — total, next, next-ts,
left, more, posts — carry the new page's values, while the stored raw
HTTP response and the session handle are unchanged. -/
theorem c8_advance_overwrites_page_fields :
    ∀ (self : Response) (http : String → HttpResponse) (fuel : Nat) (r2 : Response),
      self.more ≠ 0 → self.get_next http = Except.ok r2 →
      (self.iterate http (fuel + 1)
        = (self.posts ++ (iterLoop http fuel (advanceSelf self r2) r2).1,
           self.next :: (iterLoop http fuel (advanceSelf self r2) r2).2.1,
           (iterLoop http fuel (advanceSelf self r2) r2).2.2.1,
           (iterLoop http fuel (advanceSelf self r2) r2).2.2.2))
      ∧ (advanceSelf self r2).total = r2.total
      ∧ (advanceSelf self r2).next = r2.next
      ∧ (advanceSelf self r2).next_ts = r2.next_ts
      ∧ (advanceSelf self r2).left = r2.left
      ∧ (advanceSelf self r2).more = r2.more
      ∧ (advanceSelf self r2).posts = r2.posts
      ∧ (advanceSelf self r2).response = self.response
      ∧ (advanceSelf self r2).session = self.session := by
  intro self http fuel r2 h hget
  refine ⟨?_, rfl, rfl, rfl, rfl, rfl, rfl, rfl, rfl⟩
  simp [Response.iterate, iterLoop, h, hget]

theorem c8_advance_overwrites_page_fields_witness :
    respFirst.iterate http2 (1 + 1)
        = (respFirst.posts ++ resp2.posts, [respFirst.next], advanceSelf respFirst resp2,
           Option.none)
    ∧ (advanceSelf respFirst resp2).posts = resp2.posts
    ∧ (advanceSelf respFirst resp2).response = respFirst.response := by
  have h := c8_advance_overwrites_page_fields respFirst http2 1 resp2 (by decide) rfl
  refine ⟨?_, h.2.2.2.2.2.2.1, h.2.2.2.2.2.2.2.1⟩
  rw [h.1]
  rfl

/-- C9 (amended): `Response` construction unconditionally extracts the
cursor timestamp from the raw `next` value, regardless of
`moreResultsAvailable`: an absent `next` key raises `KeyError` and a
`next` URL without a `ts` query parameter raises `KeyError` (lookup
errors), while a `null` next also fails construction but with an
`AttributeError` from the URL parser. -/
theorem c9_next_ts_extraction :
    ∀ (sess : Session) (r : HttpResponse),
      (r.json.next = JsonNext.absent → mkResponse sess r = Except.error PyError.keyError)
      ∧ (r.json.next = JsonNext.null → mkResponse sess r = Except.error PyError.attributeError)
      ∧ (∀ s : String, r.json.next = JsonNext.str s →
          (parse_qs (urlQuery s)).lookup "ts" = Option.none →
          mkResponse sess r = Except.error PyError.keyError) := by
  intro sess r
  refine ⟨?_, ?_, ?_⟩
  · intro h
    simp [mkResponse, h, jsonNextGet]
  · intro h
    simp [mkResponse, h, jsonNextGet, extract_next_ts]
  · intro s h hts
    simp [mkResponse, h, jsonNextGet, extract_next_ts, hts]

/-- C9 counterexample: on a last page (`moreResultsAvailable = 0`)
whose JSON `next` field is `null`, construction fails with an
`AttributeError`, which is not a Python lookup error, so the claim
that all three failure shapes raise a lookup error is false. -/
theorem c9_counterexample :
    rNull.json.moreResultsAvailable = 0
    ∧ mkResponse sess0 rNull = Except.error PyError.attributeError
    ∧ isLookupError PyError.attributeError = false :=
  ⟨rfl, rfl, rfl⟩

theorem c9_next_ts_extraction_witness :
    mkResponse sess0 rBad = Except.error PyError.keyError
    ∧ mkResponse sess0 rNoTs = Except.error PyError.keyError :=
  ⟨(c9_next_ts_extraction sess0 rBad).1 rfl,
   (c9_next_ts_extraction sess0 rNoTs).2.2 "http://webhose.io/search?p=2" rfl rfl⟩

theorem c10_falsy_renders_as_unset_witness :
    (setScalar emptyQuery ScalarField.exact_phrase (some "")).query_string
        = (setScalar emptyQuery ScalarField.exact_phrase Option.none).query_string
    ∧ clauseOf emptyQuery FieldName.is_first = []
    ∧ clauseOf emptySiteQuery (FieldName.list "site") = [] :=
  ⟨c10_falsy_renders_as_unset.1 emptyQuery ScalarField.exact_phrase,
   c10_falsy_renders_as_unset.2.1 emptyQuery rfl,
   c10_falsy_renders_as_unset.2.2.1 emptySiteQuery "site" rfl⟩

theorem isDigit_digitChar (k : Nat) (h : k < 10) : (Char.ofNat (48 + k)).isDigit = true := by
  interval_cases k <;> decide

theorem dv_digitChar (k : Nat) (h : k < 10) : dv (Char.ofNat (48 + k)) = k := by
  interval_cases k <;> decide

theorem parse_isoChars_eq
    (y m d h mi se oh om : Nat) (f1 f2 f3 : Char) (plus : Bool)
    (hy1 : 1 ≤ y) (hy : y ≤ 9999) (hm1 : 1 ≤ m) (hm : m ≤ 12)
    (hd1 : 1 ≤ d) (hd : d ≤ daysInMonth y m) (hh : h ≤ 23) (hmi : mi ≤ 59) (hse : se ≤ 59)
    (hoh : oh ≤ 99) (hom : om ≤ 99)
    (hlo : datetimeMinSeconds
      ≤ naiveSeconds y m d h mi se - (if plus then (1 : Int) else -1) * (oh * 3600 + om * 60))
    (hhi : naiveSeconds y m d h mi se - (if plus then (1 : Int) else -1) * (oh * 3600 + om * 60)
      ≤ datetimeMaxSeconds) :
    parse_iso8601_chars (isoChars y m d h mi se f1 f2 f3 plus oh om)
      = some (naiveSeconds y m d h mi se
          - (if plus then (1 : Int) else -1) * (oh * 3600 + om * 60)) := by
  have hten : (0 : Nat) < 10 := by norm_num
  have hdig : ∀ k : Nat, (Char.ofNat (48 + k % 10)).isDigit = true :=
    fun k => isDigit_digitChar (k % 10) (Nat.mod_lt k hten)
  have hdv : ∀ k : Nat, dv (Char.ofNat (48 + k % 10)) = k % 10 :=
    fun k => dv_digitChar (k % 10) (Nat.mod_lt k hten)
  have htake : (isoChars y m d h mi se f1 f2 f3 plus oh om).take
        ((isoChars y m d h mi se f1 f2 f3 plus oh om).length - 10)
      = [Char.ofNat (48 + y / 1000 % 10), Char.ofNat (48 + y / 100 % 10),
         Char.ofNat (48 + y / 10 % 10), Char.ofNat (48 + y % 10), '-',
         Char.ofNat (48 + m / 10 % 10), Char.ofNat (48 + m % 10), '-',
         Char.ofNat (48 + d / 10 % 10), Char.ofNat (48 + d % 10), 'T',
         Char.ofNat (48 + h / 10 % 10), Char.ofNat (48 + h % 10), ':',
         Char.ofNat (48 + mi / 10 % 10), Char.ofNat (48 + mi % 10), ':',
         Char.ofNat (48 + se / 10 % 10), Char.ofNat (48 + se % 10)] := rfl
  have hyv : dv (Char.ofNat (48 + y / 1000 % 10)) * 1000 + dv (Char.ofNat (48 + y / 100 % 10)) * 100
      + dv (Char.ofNat (48 + y / 10 % 10)) * 10 + dv (Char.ofNat (48 + y % 10)) = y := by
    simp only [hdv]; omega
  have hmv : dv (Char.ofNat (48 + m / 10 % 10)) * 10 + dv (Char.ofNat (48 + m % 10)) = m := by
    simp only [hdv]; omega
  have hdm : daysInMonth y m ≤ 31 := by
    simp only [daysInMonth]
    split
    · split <;> omega
    · split <;> omega
  have hd31 : d ≤ 31 := le_trans hd hdm
  have hdvv : dv (Char.ofNat (48 + d / 10 % 10)) * 10 + dv (Char.ofNat (48 + d % 10)) = d := by
    simp only [hdv]; omega
  have hhv : dv (Char.ofNat (48 + h / 10 % 10)) * 10 + dv (Char.ofNat (48 + h % 10)) = h := by
    simp only [hdv]; omega
  have hmiv : dv (Char.ofNat (48 + mi / 10 % 10)) * 10 + dv (Char.ofNat (48 + mi % 10)) = mi := by
    simp only [hdv]; omega
  have hsev : dv (Char.ofNat (48 + se / 10 % 10)) * 10 + dv (Char.ofNat (48 + se % 10)) = se := by
    simp only [hdv]; omega
  have hstrp : strptimeYmdHMS
        [Char.ofNat (48 + y / 1000 % 10), Char.ofNat (48 + y / 100 % 10),
         Char.ofNat (48 + y / 10 % 10), Char.ofNat (48 + y % 10), '-',
         Char.ofNat (48 + m / 10 % 10), Char.ofNat (48 + m % 10), '-',
         Char.ofNat (48 + d / 10 % 10), Char.ofNat (48 + d % 10), 'T',
         Char.ofNat (48 + h / 10 % 10), Char.ofNat (48 + h % 10), ':',
         Char.ofNat (48 + mi / 10 % 10), Char.ofNat (48 + mi % 10), ':',
         Char.ofNat (48 + se / 10 % 10), Char.ofNat (48 + se % 10)]
      = some (y, m, d, h, mi, se) := by
    simp only [strptimeYmdHMS]
    rw [if_pos ⟨True.intro, True.intro, True.intro, True.intro, True.intro,
      hdig (y / 1000), hdig (y / 100), hdig (y / 10), hdig y,
      hdig (m / 10), hdig m, hdig (d / 10), hdig d,
      hdig (h / 10), hdig h, hdig (mi / 10), hdig mi,
      hdig (se / 10), hdig se⟩]
    rw [hyv, hmv, hdvv, hhv, hmiv, hsev]
    rw [if_pos ⟨hy1, hm1, hm, hd1, hd, hh, hmi, hse⟩]
  have hget : (isoChars y m d h mi se f1 f2 f3 plus oh om).get? 23
      = some (if plus then '+' else '-') := rfl
  have hoh2 : pyIntChars (((isoChars y m d h mi se f1 f2 f3 plus oh om).drop 24).take 2)
      = some oh := by
    rw [show ((isoChars y m d h mi se f1 f2 f3 plus oh om).drop 24).take 2
          = [Char.ofNat (48 + oh / 10 % 10), Char.ofNat (48 + oh % 10)] from rfl]
    simp only [pyIntChars]
    rw [if_pos ⟨by simp, by simp [List.all_cons, List.all_nil, hdig (oh / 10), hdig oh]⟩]
    refine congrArg some ?_
    simp only [List.foldl_cons, List.foldl_nil]
    rw [hdv (oh / 10), hdv oh]
    omega
  have hom2 : pyIntChars (((isoChars y m d h mi se f1 f2 f3 plus oh om).drop 27).take 2)
      = some om := by
    rw [show ((isoChars y m d h mi se f1 f2 f3 plus oh om).drop 27).take 2
          = [Char.ofNat (48 + om / 10 % 10), Char.ofNat (48 + om % 10)] from rfl]
    simp only [pyIntChars]
    rw [if_pos ⟨by simp, by simp [List.all_cons, List.all_nil, hdig (om / 10), hdig om]⟩]
    refine congrArg some ?_
    simp only [List.foldl_cons, List.foldl_nil]
    rw [hdv (om / 10), hdv om]
    omega
  simp only [parse_iso8601_chars]
  rw [htake, hstrp]
  simp only [parseOffsetPart]
  rw [hget, hoh2, hom2]
  show dtSub (naiveSeconds y m d h mi se)
      ((if (if plus then '+' else '-') = '+' then (1 : Int) else -1)
        * ((oh : Int) * 3600 + (om : Int) * 60))
    = some (naiveSeconds y m d h mi se
        - (if plus then (1 : Int) else -1) * ((oh : Int) * 3600 + (om : Int) * 60))
  rw [show (if (if plus then '+' else '-') = '+' then (1 : Int) else -1)
        = (if plus then (1 : Int) else -1) from by cases plus <;> rfl]
  simp only [dtSub]
  rw [if_pos ⟨hlo, hhi⟩]

/-- C7 counterexample: at the valid timestamp `0001-01-01T00:00:00`
with a positive one-hour offset, subtracting the offset leaves the
supported `datetime` range (year 1 through 9999), so the program
raises `OverflowError` and the parser yields no normalized timestamp,
refuting the claim that the signed offset is subtracted to a UTC
value at every such input. -/
theorem c7_overflow_counterexample :
    parse_iso8601 "0001-01-01T00:00:00.000+01:00" = Option.none
    ∧ (Option.none : Option Int)
        ≠ some (naiveSeconds 1 1 1 0 0 0 - (1 : Int) * ((1 : Int) * 3600 + (0 : Int) * 60)) :=
  ⟨rfl, by decide⟩

/-- C7 (amended): the timestamp parser reads the `YYYY-MM-DDTHH:MM:SS`
prefix (the input with its last ten characters removed) with
`strptime` and the offset sign, hours and minutes from the fixed
character positions 23, 24-25 and 27-28, and subtracts the signed
offset from the naive timestamp to normalize to UTC whenever the
result stays within the supported `datetime` range, year 1 through
9999 (outside it the subtraction raises `OverflowError`); in
particular the specification example with a plus-three-hour offset
parses to seven hours UTC of the same day. -/
theorem c7_fixed_position_offset_parse :
    (∀ (y m d h mi se oh om : Nat) (f1 f2 f3 : Char) (plus : Bool),
        1 ≤ y → y ≤ 9999 → 1 ≤ m → m ≤ 12 → 1 ≤ d → d ≤ daysInMonth y m →
        h ≤ 23 → mi ≤ 59 → se ≤ 59 → oh ≤ 99 → om ≤ 99 →
        datetimeMinSeconds
            ≤ naiveSeconds y m d h mi se
              - (if plus then (1 : Int) else -1) * (oh * 3600 + om * 60) →
        naiveSeconds y m d h mi se - (if plus then (1 : Int) else -1) * (oh * 3600 + om * 60)
            ≤ datetimeMaxSeconds →
        parse_iso8601_chars (isoChars y m d h mi se f1 f2 f3 plus oh om)
          = some (naiveSeconds y m d h mi se
              - (if plus then (1 : Int) else -1) * (oh * 3600 + om * 60)))
    ∧ parse_iso8601 "2016-06-01T10:00:00.000+03:00" = some (naiveSeconds 2016 6 1 7 0 0) := by
  constructor
  · exact fun y m d h mi se oh om f1 f2 f3 plus h1 h2 h3 h4 h5 h6 h7 h8 h9 h10 h11 h12 h13 =>
      parse_isoChars_eq y m d h mi se oh om f1 f2 f3 plus h1 h2 h3 h4 h5 h6 h7 h8 h9 h10 h11 h12 h13
  · rfl

theorem c7_fixed_position_offset_parse_witness :
    parse_iso8601_chars (isoChars 2020 2 29 23 59 59 '1' '2' '3' false 5 30)
      = some (naiveSeconds 2020 2 29 23 59 59
          - (if false then (1 : Int) else -1) * (5 * 3600 + 30 * 60)) :=
  c7_fixed_position_offset_parse.1 2020 2 29 23 59 59 5 30 '1' '2' '3' false
    (by norm_num) (by norm_num) (by norm_num) (by norm_num) (by norm_num)
    (by decide) (by norm_num) (by norm_num) (by norm_num) (by norm_num) (by norm_num)
    (by decide) (by decide)

end Webhose
